import Mathlib

/-!
Verification of the execution-proof validation engine (browser-based XSS
validator): a shallow embedding of `internal/browser/manager.go`,
`internal/browser/types.go`, `pkg/scanning/headless.go` and the Puppeteer
driver script `puppeteer_verifier.js`, together with proofs about the
embedded operations.

Effectful primitives (browser navigation, dialog events, screenshot
capture, image codec, filesystem writes, clocks) are modelled by an
explicit oracle (`Browser.PageWorld`) describing how the outside world
behaves during one validation call; every function of the code becomes a
pure function of its arguments and that oracle.  `crypto/sha256` (Go) and
`crypto.createHash('sha256')` (node) are modelled by a full executable
SHA-256 implementation; `encoding/base64` by an executable standard
base64 encoder.
-/

/-! SHA-256, as used by `crypto/sha256` and node's `crypto` module.
All words are `Nat`s reduced modulo `2 ^ 32`. -/

namespace SHA256

/-- Reduce to a 32-bit word. -/
def w32 (n : Nat) : Nat := n % 4294967296

/-- Right rotation of a 32-bit word by `n` bits. -/
def rotr (n x : Nat) : Nat := w32 (x / 2 ^ n + x % 2 ^ n * 2 ^ (32 - n))

def bigSigma0 (x : Nat) : Nat := rotr 2 x ^^^ rotr 13 x ^^^ rotr 22 x

def bigSigma1 (x : Nat) : Nat := rotr 6 x ^^^ rotr 11 x ^^^ rotr 25 x

def smallSigma0 (x : Nat) : Nat := rotr 7 x ^^^ rotr 18 x ^^^ x / 2 ^ 3

def smallSigma1 (x : Nat) : Nat := rotr 17 x ^^^ rotr 19 x ^^^ x / 2 ^ 10

def ch (x y z : Nat) : Nat := (x &&& y) ^^^ ((4294967295 - w32 x) &&& z)

def maj (x y z : Nat) : Nat := (x &&& y) ^^^ (x &&& z) ^^^ (y &&& z)

/-- The 64 SHA-256 round constants of FIPS 180-4, in decimal. -/
def K : List Nat :=
  [1116352408, 1899447441, 3049323471, 3921009573, 961987163, 1508970993,
   2453635748, 2870763221, 3624381080, 310598401, 607225278, 1426881987,
   1925078388, 2162078206, 2614888103, 3248222580, 3835390401, 4022224774,
   264347078, 604807628, 770255983, 1249150122, 1555081692, 1996064986,
   2554220882, 2821834349, 2952996808, 3210313671, 3336571891, 3584528711,
   113926993, 338241895, 666307205, 773529912, 1294757372, 1396182291,
   1695183700, 1986661051, 2177026350, 2456956037, 2730485921, 2820302411,
   3259730800, 3345764771, 3516065817, 3600352804, 4094571909, 275423344,
   430227734, 506948616, 659060556, 883997877, 958139571, 1322822218,
   1537002063, 1747873779, 1955562222, 2024104815, 2227730452, 2361852424,
   2428436474, 2756734187, 3204031479, 3329325298]

/-- The initial SHA-256 hash state of FIPS 180-4, in decimal. -/
def H0 : List Nat :=
  [1779033703, 3144134277, 1013904242, 2773480762,
   1359893119, 2600822924, 528734635, 1541459225]

/-- A 64-bit big-endian byte encoding of `n`. -/
def be64 (n : Nat) : List Nat :=
  [n / 2 ^ 56 % 256, n / 2 ^ 48 % 256, n / 2 ^ 40 % 256, n / 2 ^ 32 % 256,
   n / 2 ^ 24 % 256, n / 2 ^ 16 % 256, n / 2 ^ 8 % 256, n % 256]

/-- SHA-256 message padding: `0x80`, zeros to 56 mod 64, then the bit length. -/
def pad (msg : List Nat) : List Nat :=
  msg ++ [0x80] ++ List.replicate ((119 - msg.length % 64) % 64) 0 ++ be64 (8 * msg.length)

/-- Group bytes into big-endian 32-bit words. -/
def toWords : List Nat → List Nat
  | a :: b :: c :: d :: rest => (((a * 256 + b) * 256 + c) * 256 + d) :: toWords rest
  | _ => []

/-- Group a word stream into 16-word blocks. -/
def blocks : List Nat → List (List Nat)
  | w0 :: w1 :: w2 :: w3 :: w4 :: w5 :: w6 :: w7 ::
    w8 :: w9 :: w10 :: w11 :: w12 :: w13 :: w14 :: w15 :: rest =>
      [w0, w1, w2, w3, w4, w5, w6, w7, w8, w9, w10, w11, w12, w13, w14, w15] :: blocks rest
  | _ => []

/-- One message-schedule extension step. -/
def scheduleStep (w : Array Nat) : Array Nat :=
  let i := w.size
  w.push (w32 (smallSigma1 (w.getD (i - 2) 0) + w.getD (i - 7) 0 +
    smallSigma0 (w.getD (i - 15) 0) + w.getD (i - 16) 0))

/-- Extend a 16-word block to the 64-word message schedule. -/
def buildSchedule (block : List Nat) : List Nat :=
  ((List.range 48).foldl (fun w _ => scheduleStep w) block.toArray).toList

/-- The eight SHA-256 working registers. -/
structure Regs where
  a : Nat
  b : Nat
  c : Nat
  d : Nat
  e : Nat
  f : Nat
  g : Nat
  h : Nat

/-- One SHA-256 compression round; `kw` is the round constant plus the
schedule word. -/
def round (st : Regs) (kw : Nat) : Regs :=
  let t1 := w32 (st.h + bigSigma1 st.e + ch st.e st.f st.g + kw)
  let t2 := w32 (bigSigma0 st.a + maj st.a st.b st.c)
  ⟨w32 (t1 + t2), st.a, st.b, st.c, w32 (st.d + t1), st.e, st.f, st.g⟩

/-- Compress one 16-word block into the hash state. -/
def compress (hs : List Nat) (block : List Nat) : List Nat :=
  let ws := buildSchedule block
  let kws := List.zipWith (fun k w => w32 (k + w)) K ws
  let st0 : Regs := ⟨hs.getD 0 0, hs.getD 1 0, hs.getD 2 0, hs.getD 3 0,
    hs.getD 4 0, hs.getD 5 0, hs.getD 6 0, hs.getD 7 0⟩
  let st := kws.foldl round st0
  [w32 (hs.getD 0 0 + st.a), w32 (hs.getD 1 0 + st.b), w32 (hs.getD 2 0 + st.c),
   w32 (hs.getD 3 0 + st.d), w32 (hs.getD 4 0 + st.e), w32 (hs.getD 5 0 + st.f),
   w32 (hs.getD 6 0 + st.g), w32 (hs.getD 7 0 + st.h)]

/-- SHA-256 of a byte string, as eight 32-bit words. -/
def sha256Words (msg : List Nat) : List Nat :=
  (blocks (toWords (pad msg))).foldl compress H0

/-- Lower-case hexadecimal digit. -/
def hexDigitChar (n : Nat) : Char :=
  if n < 10 then Char.ofNat (48 + n) else Char.ofNat (87 + n)

/-- Eight-character lower-case hexadecimal rendering of a 32-bit word. -/
def hex8 (n : Nat) : String :=
  String.mk ((List.range 8).map (fun i => hexDigitChar (n / 2 ^ (4 * (7 - i)) % 16)))

/-- Encoding of one character into UTF-8 bytes, as Go and node produce for
string data. -/
def utf8Bytes (c : Char) : List Nat :=
  let n := c.toNat
  if n < 128 then [n]
  else if n < 2048 then [192 + n / 64, 128 + n % 64]
  else if n < 65536 then [224 + n / 4096, 128 + n / 64 % 64, 128 + n % 64]
  else [240 + n / 262144, 128 + n / 4096 % 64, 128 + n / 64 % 64, 128 + n % 64]

/-- UTF-8 bytes of a string. -/
def strBytes (s : String) : List Nat := (s.data.map utf8Bytes).flatten

/-- Lower-case hexadecimal SHA-256 digest of a string, as produced by Go's
`fmt.Sprintf("%x", sha256.Sum256([]byte(s)))` and node's
`crypto.createHash('sha256').update(s).digest('hex')`. -/
def sha256Hex (s : String) : String :=
  String.join ((sha256Words (strBytes s)).map hex8)

end SHA256

/-! Base64 (standard alphabet with padding), as used by Go's
`base64.StdEncoding.EncodeToString` and node's `buffer.toString('base64')`. -/

/-- The standard base64 alphabet. -/
def base64Alphabet : List Char :=
  "ABCDEFGHIJKLMNOPQRSTUVWXYZabcdefghijklmnopqrstuvwxyz0123456789+/".data

/-- Character for a 6-bit group. -/
def base64Char (n : Nat) : Char := base64Alphabet.getD n '='

/-- Standard base64 encoding of a byte list, with padding. -/
def base64Encode : List Nat → String
  | [] => ""
  | [a] => String.mk [base64Char (a / 4), base64Char (a % 4 * 16), '=', '=']
  | [a, b] => String.mk [base64Char (a / 4), base64Char (a % 4 * 16 + b / 16), base64Char (b % 16 * 4), '=']
  | a :: b :: c :: rest =>
      String.mk [base64Char (a / 4), base64Char (a % 4 * 16 + b / 16),
        base64Char (b % 16 * 4 + c / 64), base64Char (c % 64)] ++ base64Encode rest

/-- Decimal value of a digit list, most significant digit first. -/
def decValue (cs : List Char) : Nat :=
  cs.foldl (fun a c => 10 * a + (c.toNat - 48)) 0

/-- Model of JavaScript's `parseInt` restricted to the clean decimal strings
this code base feeds it: an optional minus sign followed by digits; anything
else is `none` (NaN). -/
def jsParseInt (s : String) : Option Int :=
  match s.data with
  | [] => none
  | '-' :: ds =>
      if ds ≠ [] ∧ ds.all (fun c => c.isDigit) then some (-(decValue ds : Int)) else none
  | ds =>
      if ds ≠ [] ∧ ds.all (fun c => c.isDigit) then some ((decValue ds : Int)) else none

namespace Browser

/-- From `internal/browser/types.go`: `BrowserConfig` configuration for the
browser manager. -/
structure BrowserConfig where
  HeadlessMode : Bool
  DisableSandbox : Bool
  Timeout : Int
  WaitForAlertOnlyTime : Int
  ChromiumBinaryPath : String
  TakeScreenshots : Bool
deriving DecidableEq

/-- From `internal/browser/types.go`: `ExecutionProof` contains proof of
JavaScript execution.  `ScreenshotData` holds the base64 text Go stores as
`[]byte`. -/
structure ExecutionProof where
  PayloadSHA256 : String
  ExecutionType : String
  ExecutedAt : Nat
  Evidence : String
  PageURL : String
  PageTitle : String
  ExecutionContext : String
  ScreenshotPath : String
  ScreenshotData : String
deriving DecidableEq

/-- From `internal/browser/types.go`: `ValidationResult` contains the result
of payload validation in the browser.  The Go `error` field is an
`Option String`. -/
structure ValidationResult where
  IsVulnerable : Bool
  ExecutionDetected : Bool
  ExecutionProofs : List ExecutionProof
  Error : Option String
  ValidationDuration : Nat
deriving DecidableEq

/-- From `internal/browser/manager.go`: the manager state a validation call
reads (its config and the `isInitialized` flag; the session bookkeeping map
plays no role in a single call). -/
structure Manager where
  config : BrowserConfig
  isInitialized : Bool
deriving DecidableEq

/-- A script-triggered dialog the page under test would open:
`firedAt` is the time in seconds from the start of navigation at which it
opens, `kind` the protocol dialog type string (alert, confirm, prompt,
beforeunload), `message` the dialog text. -/
structure DialogEvent where
  firedAt : Nat
  kind : String
  message : String
deriving DecidableEq

/-- Oracle for one validation call: how the outside world (browser process,
target page, image codec, filesystem, clock) behaves.

* `navError`: a browser-launch or navigation failure surfaced by the driver
  (from `chromedp.Run(navCtx, chromedp.Navigate(url))`, or thrown by
  `puppeteer.launch` / `page.goto`); `none` means navigation succeeds.
* `navDuration`: seconds a successful navigation takes.
* `dialog`: the first dialog the page opens, if any (the driver buffers at
  most one; later ones are dropped by the channel's `default` case).
* `screenshot`: bytes the capture primitive returns, `none` when capture
  fails.
* `decodeImage` / `encodeJPEG`: the image codec (`image.Decode` and
  `jpeg.Encode` with the given quality), `none` for a codec error.
* `writeOk`: whether the proof-file disk write succeeds.
* `titleResult`: result of querying the page title, `none` when the query
  fails.
* `saveUnixTime`: the Unix timestamp the clock yields when the proof file
  name is built; `execTime` the timestamp recorded in the proof. -/
structure PageWorld where
  navError : Option String
  navDuration : Nat
  dialog : Option DialogEvent
  screenshot : Option (List Nat)
  decodeImage : List Nat → Option (List Nat)
  encodeJPEG : List Nat → Nat → Option (List Nat)
  writeOk : Bool
  titleResult : Option String
  saveUnixTime : Nat
  execTime : Nat

/-- Driver actions observable in a validation call, in program order:
registering the dialog listener, starting navigation, answering an open
dialog (the protocol command that dismisses or accepts it), capturing a
screenshot, writing the proof file, querying the page title. -/
inductive Step where
  | registerListener
  | navigate
  | handleDialog
  | captureScreenshot
  | writeProofFile
  | queryTitle
deriving DecidableEq

/-- Result of one embedded call: the returned `ValidationResult`, the files
successfully written under the proof root, and the trace of driver actions. -/
structure CallOutput where
  result : ValidationResult
  writes : List (String × List Nat)
  steps : List Step

/-- From `internal/browser/manager.go`: `convertPNGtoJPG` converts PNG image
bytes to JPEG bytes with the given quality; a decode or encode error is
returned to the caller. -/
def convertPNGtoJPG (w : PageWorld) (pngBytes : List Nat) (quality : Nat) :
    Except String (List Nat) :=
  match w.decodeImage pngBytes with
  | none => Except.error "image decode failed"
  | some img =>
    match w.encodeJPEG img quality with
    | none => Except.error "jpeg encode failed"
    | some out => Except.ok out

/-- From `internal/browser/manager.go`: `dialogTypeFromString` maps CDP
dialog type strings to `ExecutionType` values. -/
def dialogTypeFromString (s : String) : String :=
  match s with
  | "alert" => "alert"
  | "confirm" => "confirm"
  | "prompt" => "prompt"
  | _ => "dialog"

/-- The dialog wait actually used by `ValidatePayload`: the configured
`WaitForAlertOnlyTime`, replaced by 5 when it is zero or negative
(`if waitSec <= 0 { waitSec = 5 }`). -/
def effectiveWait (cfg : BrowserConfig) : Int :=
  if cfg.WaitForAlertOnlyTime ≤ 0 then 5 else cfg.WaitForAlertOnlyTime

/-- Proof file name built by `ValidatePayload` (and by the Puppeteer script):
`fmt.Sprintf("%s_%s_%d.jpg", targetHash[:12], payloadHash[:12],
time.Now().Unix())` where both hashes are hex SHA-256 digests. -/
def proofFileName (url payload : String) (unixTime : Nat) : String :=
  (SHA256.sha256Hex url).take 12 ++ "_" ++ (SHA256.sha256Hex payload).take 12 ++ "_" ++
    Nat.repr unixTime ++ ".jpg"

/-- Whether the first dialog of the page arrives before the select's wait
window elapses: the channel wins the race against
`time.After(waitSec * time.Second)` exactly when the dialog opens strictly
before `navDuration + waitSec` (a dialog fired during page load is already
buffered when the race starts). -/
def dialogWithinWindow (w : PageWorld) (waitSec : Int) : Bool :=
  match w.dialog with
  | some d => (d.firedAt : Int) < (w.navDuration : Int) + waitSec
  | none => false

/-- The screenshot / convert / write chain of `ValidatePayload`'s confirmed
branch: capture PNG bytes (`chromedp.FullScreenshot`), convert them to JPEG
via `convertPNGtoJPG(pngBuf, 95)`, and write the hash-named file; any
failure in the chain yields `none` (the Go code then simply leaves the
proof's image fields empty). -/
def capturedFile (w : PageWorld) (url payload : String) : Option (String × List Nat) :=
  match w.screenshot with
  | none => none
  | some png =>
    match convertPNGtoJPG w png 95 with
    | Except.error _ => none
    | Except.ok jpg =>
      if w.writeOk then
        some ("snapshots/jpg/" ++ proofFileName url payload w.saveUnixTime, jpg)
      else none

/-- The `ExecutionProof` built by `ValidatePayload`'s confirmed branch:
hashed payload, mapped dialog type, dialog message as evidence, best-effort
page title, and image fields present exactly when the capture chain
succeeded. -/
def confirmedProof (w : PageWorld) (url payload contextStr : String)
    (d : DialogEvent) : ExecutionProof :=
  { PayloadSHA256 := SHA256.sha256Hex payload
    ExecutionType := dialogTypeFromString d.kind
    ExecutedAt := w.execTime
    Evidence := d.message
    PageURL := url
    PageTitle := w.titleResult.getD ""
    ExecutionContext := contextStr
    ScreenshotPath :=
      match capturedFile w url payload with
      | some (pth, _) => pth
      | none => ""
    ScreenshotData :=
      match capturedFile w url payload with
      | some (_, jpg) => base64Encode jpg
      | none => "" }

/-- From `internal/browser/manager.go`: `ValidatePayload` navigates to the
provided URL (payload already embedded by the scanner), waits for
JavaScript dialogs for a limited time, and on detected execution takes a
JPG screenshot saved under `snapshots/jpg/`.  Every Go statement is
mirrored: the not-initialized early return; the dialog listener registered
(`chromedp.ListenTarget`) before navigation; the navigation error early
return; the wait-time default; the select racing the dialog channel against
the timer; on a dialog, the proof built with hashed payload and mapped
dialog type, the screenshot / convert / write chain whose failures only
skip the image fields, the best-effort title query; on timeout, the
negative result. -/
def ValidatePayload (m : Manager) (w : PageWorld)
    (sessionID url payload contextStr : String) : CallOutput :=
  if !m.isInitialized then
    { result :=
        { IsVulnerable := false
          ExecutionDetected := false
          ExecutionProofs := []
          Error := some "browser not initialized"
          ValidationDuration := 0 }
      writes := []
      steps := [] }
  else
    match w.navError with
    | some e =>
      { result :=
          { IsVulnerable := false
            ExecutionDetected := false
            ExecutionProofs := []
            Error := some e
            ValidationDuration := w.navDuration }
        writes := []
        steps := [Step.registerListener, Step.navigate] }
    | none =>
      let waitSec := effectiveWait m.config
      match w.dialog with
      | some d =>
        if (d.firedAt : Int) < (w.navDuration : Int) + waitSec then
          { result :=
              { IsVulnerable := true
                ExecutionDetected := true
                ExecutionProofs := [confirmedProof w url payload contextStr d]
                Error := none
                ValidationDuration := max w.navDuration d.firedAt }
            writes :=
              match capturedFile w url payload with
              | some (pth, jpg) => [(pth, jpg)]
              | none => []
            steps := [Step.registerListener, Step.navigate, Step.captureScreenshot] ++
              (match capturedFile w url payload with
                | some _ => [Step.writeProofFile]
                | none => []) ++ [Step.queryTitle] }
        else
          { result :=
              { IsVulnerable := false
                ExecutionDetected := false
                ExecutionProofs := []
                Error := none
                ValidationDuration := w.navDuration + waitSec.toNat }
            writes := []
            steps := [Step.registerListener, Step.navigate] }
      | none =>
        { result :=
            { IsVulnerable := false
              ExecutionDetected := false
              ExecutionProofs := []
              Error := none
              ValidationDuration := w.navDuration + waitSec.toNat }
          writes := []
          steps := [Step.registerListener, Step.navigate] }

/-- From `internal/browser/manager.go`: `VerifyStoredXSS` revisits the URL
to check for stored payload execution; it delegates to `ValidatePayload`
with the fixed payload `"[stored-check]"` and context `"stored"`. -/
def VerifyStoredXSS (m : Manager) (w : PageWorld) (url sessionID : String) : CallOutput :=
  ValidatePayload m w sessionID url "[stored-check]" "stored"

end Browser

namespace Scanning

/-- From `pkg/scanning/headless.go`: the options a headless check reads
(`--puppeteer-headless` flag and the headless timeout). -/
structure Options where
  PuppeteerHeadless : Bool
  HeadlessTimeout : Int
deriving DecidableEq

/-- From `pkg/scanning/headless.go` `init()`: the fixed configuration of the
package-level browser manager. -/
def initBrowserConfig : Browser.BrowserConfig :=
  { HeadlessMode := true
    DisableSandbox := false
    Timeout := 30
    WaitForAlertOnlyTime := 5
    ChromiumBinaryPath := ""
    TakeScreenshots := true }

/-- The package-level `browserMgr` after `init()` ran: `NewManager` with
`initBrowserConfig` followed by `Initialize()`, which only creates the
snapshot directories (errors ignored) and sets `isInitialized`. -/
def browserMgr : Browser.Manager :=
  { config := initBrowserConfig, isInitialized := true }

/-- From `pkg/scanning/headless.go`: `checkXSSWithChromedp` validates with
the package-level manager and fixed payload `"[headless-check]"` /
context `"headless"`; the verdict is `ExecutionDetected`, with a log line
when a screenshot path is present.  Returns (verdict, log lines). -/
def checkXSSWithChromedp (url : String) (options : Options) (sessionID : String)
    (w : Browser.PageWorld) : Bool × List String :=
  let validationResult := Browser.ValidatePayload browserMgr w sessionID url
    "[headless-check]" "headless"
  if validationResult.result.ExecutionDetected then
    (true,
      match validationResult.result.ExecutionProofs with
      | p :: _ =>
        if p.ScreenshotPath ≠ "" then
          ["CORE REQUIREMENT: Screenshot saved to " ++ p.ScreenshotPath]
        else []
      | [] => [])
  else (false, [])

/-- Shape of one proof object in the Puppeteer script's JSON output. -/
structure JSProof where
  payloadSHA256 : String
  executionType : String
  executedAt : Nat
  evidence : String
  pageURL : String
  pageTitle : String
  screenshotPath : String
  screenshotData : String
  executionContext : String
deriving DecidableEq

/-- Shape of the JSON object the Puppeteer script prints. -/
structure VerifyResult where
  isVulnerable : Bool
  executionDetected : Bool
  executionProofs : List JSProof
  error : Option String
  validationDuration : Nat
deriving DecidableEq

/-- Result of one run of the Puppeteer script: its JSON output, the files
it wrote, and its driver-action trace. -/
structure JSOutput where
  result : VerifyResult
  writes : List (String × List Nat)
  steps : List Browser.Step

/-- From `puppeteer_verifier.js`: `verifyXSS`.  The dialog handler is
installed before `page.goto` and dismisses every dialog
(`await dialog.dismiss()`).  After navigation the script polls for up to
`waitTime` seconds.  On detection it screenshots directly to JPEG
(quality 95), writes the file under `snapshots/jpg` with the same
hash-based name as the Go driver (payload defaulted to
`'headless-check'` when empty), then reads the title.  Any throw — launch
or navigation failure, screenshot failure, write failure, title failure —
is caught and collapsed to a non-vulnerable result with an error message;
note a write that already happened is not undone by a later throw. -/
def verifyXSS (w : Browser.PageWorld) (url payload sessionId : String)
    (timeout waitTime : Int) : JSOutput :=
  match w.navError with
  | some e =>
    { result :=
        { isVulnerable := false
          executionDetected := false
          executionProofs := []
          error := some e
          validationDuration := 0 }
      writes := []
      steps := [Browser.Step.registerListener, Browser.Step.navigate] }
  | none =>
    let payloadOr := if payload = "" then "headless-check" else payload
    match w.dialog with
    | some d =>
      if (d.firedAt : Int) < (w.navDuration : Int) + waitTime then
        match w.screenshot with
        | none =>
          { result :=
              { isVulnerable := false
                executionDetected := false
                executionProofs := []
                error := some "screenshot failed"
                validationDuration := 0 }
            writes := []
            steps := [Browser.Step.registerListener, Browser.Step.navigate,
              Browser.Step.handleDialog, Browser.Step.captureScreenshot] }
        | some shot =>
          let filepath := "snapshots/jpg/" ++ Browser.proofFileName url payloadOr w.saveUnixTime
          if w.writeOk then
            match w.titleResult with
            | none =>
              { result :=
                  { isVulnerable := false
                    executionDetected := false
                    executionProofs := []
                    error := some "title failed"
                    validationDuration := 0 }
                writes := [(filepath, shot)]
                steps := [Browser.Step.registerListener, Browser.Step.navigate,
                  Browser.Step.handleDialog, Browser.Step.captureScreenshot,
                  Browser.Step.writeProofFile, Browser.Step.queryTitle] }
            | some title =>
              { result :=
                  { isVulnerable := true
                    executionDetected := true
                    executionProofs :=
                      [{ payloadSHA256 := SHA256.sha256Hex payloadOr
                         executionType := d.kind
                         executedAt := w.execTime
                         evidence := d.message
                         pageURL := url
                         pageTitle := title
                         screenshotPath := filepath
                         screenshotData := base64Encode shot
                         executionContext := "headless" }]
                    error := none
                    validationDuration := max w.navDuration d.firedAt }
                writes := [(filepath, shot)]
                steps := [Browser.Step.registerListener, Browser.Step.navigate,
                  Browser.Step.handleDialog, Browser.Step.captureScreenshot,
                  Browser.Step.writeProofFile, Browser.Step.queryTitle] }
          else
            { result :=
                { isVulnerable := false
                  executionDetected := false
                  executionProofs := []
                  error := some "write failed"
                  validationDuration := 0 }
              writes := []
              steps := [Browser.Step.registerListener, Browser.Step.navigate,
                Browser.Step.handleDialog, Browser.Step.captureScreenshot,
                Browser.Step.writeProofFile] }
      else
        { result :=
            { isVulnerable := false
              executionDetected := false
              executionProofs := []
              error := none
              validationDuration := w.navDuration + waitTime.toNat }
          writes := []
          steps := [Browser.Step.registerListener, Browser.Step.navigate] }
    | none =>
      { result :=
          { isVulnerable := false
            executionDetected := false
            executionProofs := []
            error := none
            validationDuration := w.navDuration + waitTime.toNat }
        writes := []
        steps := [Browser.Step.registerListener, Browser.Step.navigate] }

/-- From `puppeteer_verifier.js` main block: argument handling.  With no URL
the process exits nonzero (`none`); otherwise payload and session id default
when empty, timeout and wait default through `parseInt(a) || d` (so NaN and
0 both fall back to the default), and `verifyXSS` runs. -/
def puppeteerMain (w : Browser.PageWorld) (args : List String) : Option JSOutput :=
  if args.length < 1 then none
  else
    let url := args.getD 0 ""
    let payload := let a := args.getD 1 ""; if a = "" then "headless-check" else a
    let sessionId := let a := args.getD 2 ""; if a = "" then "session_default" else a
    let timeout := match jsParseInt (args.getD 3 "") with
      | none => 30
      | some n => if n = 0 then 30 else n
    let waitTime := match jsParseInt (args.getD 4 "") with
      | none => 5
      | some n => if n = 0 then 5 else n
    some (verifyXSS w url payload sessionId timeout waitTime)

/-- Outcome of running the Puppeteer subprocess from Go: a nonzero exit
(`cmd.Output()` error), output that does not parse as the expected JSON, or
a parsed result. -/
inductive SubprocessOutcome where
  | exitError (msg : String)
  | badOutput (msg : String)
  | ok (r : VerifyResult)

/-- The positional arguments `checkXSSWithPuppeteer` passes to the script:
url, fixed payload `"[headless-check]"`, session id, `HeadlessTimeout`,
and `HeadlessTimeout / 6` as the wait time (Go integer division). -/
def puppeteerArgs (url sessionID : String) (options : Options) : List String :=
  [url, "[headless-check]", sessionID, Int.repr options.HeadlessTimeout,
    Int.repr (Int.tdiv options.HeadlessTimeout 6)]

/-- From `pkg/scanning/headless.go`: `checkXSSWithPuppeteer` runs the
script; a subprocess error or unparsable output is logged and yields
`false`; otherwise the verdict is the parsed `executionDetected`, with a
log line when a screenshot path came back.  Returns (verdict, log lines). -/
def checkXSSWithPuppeteer (url : String) (options : Options) (sessionID : String)
    (subprocess : List String → SubprocessOutcome) : Bool × List String :=
  match subprocess (puppeteerArgs url sessionID options) with
  | SubprocessOutcome.exitError msg =>
    (false, ["Puppeteer verification failed: " ++ msg])
  | SubprocessOutcome.badOutput msg =>
    (false, ["Failed to parse Puppeteer result: " ++ msg])
  | SubprocessOutcome.ok r =>
    if r.executionDetected then
      (true,
        match r.executionProofs with
        | p :: _ =>
          if p.screenshotPath ≠ "" then
            ["CORE REQUIREMENT: Screenshot saved to " ++ p.screenshotPath]
          else []
        | [] => [])
    else (false, [])

/-- A subprocess that faithfully runs the embedded Puppeteer script against
the world `w` and prints its JSON result. -/
def honestSubprocess (w : Browser.PageWorld) : List String → SubprocessOutcome :=
  fun args =>
    match puppeteerMain w args with
    | none => SubprocessOutcome.exitError "usage"
    | some out => SubprocessOutcome.ok out.result

/-- From `pkg/scanning/headless.go`: `CheckXSSWithHeadless` selects the
Puppeteer backend when `PuppeteerHeadless` is set, otherwise chromedp. -/
def CheckXSSWithHeadless (url : String) (options : Options) (sessionID : String)
    (w : Browser.PageWorld)
    (subprocess : List String → SubprocessOutcome) : Bool × List String :=
  if options.PuppeteerHeadless then
    checkXSSWithPuppeteer url options sessionID subprocess
  else
    checkXSSWithChromedp url options sessionID w

end Scanning

/-! Concrete worlds used to evaluate the embedded code on closed inputs. -/

/-- A world where navigation succeeds in one second, an alert fires during
page load, and screenshot, image codec, disk write and title query all
succeed. -/
def worldCaptureOk : Browser.PageWorld :=
  { navError := none
    navDuration := 1
    dialog := some { firedAt := 0, kind := "alert", message := "xss" }
    screenshot := some [1, 2, 3]
    decodeImage := fun b => some b
    encodeJPEG := fun b _ => some b
    writeOk := true
    titleResult := some "Example Domain"
    saveUnixTime := 1700000000
    execTime := 1700000000 }

/-- A world like `worldCaptureOk` whose screenshot capture fails. -/
def worldCaptureFails : Browser.PageWorld :=
  { navError := none
    navDuration := 1
    dialog := some { firedAt := 0, kind := "confirm", message := "xss" }
    screenshot := none
    decodeImage := fun _ => none
    encodeJPEG := fun _ _ => none
    writeOk := false
    titleResult := none
    saveUnixTime := 1700000000
    execTime := 1700000000 }

/-- A world where navigation succeeds but the page opens no dialog at all. -/
def worldNoDialog : Browser.PageWorld :=
  { navError := none
    navDuration := 1
    dialog := none
    screenshot := some [1, 2, 3]
    decodeImage := fun b => some b
    encodeJPEG := fun b _ => some b
    writeOk := true
    titleResult := some "Example Domain"
    saveUnixTime := 1700000000
    execTime := 1700000000 }

/-- A world where navigation fails (connection refused). -/
def worldNavFails : Browser.PageWorld :=
  { navError := some "connection refused"
    navDuration := 2
    dialog := none
    screenshot := none
    decodeImage := fun _ => none
    encodeJPEG := fun _ _ => none
    writeOk := false
    titleResult := none
    saveUnixTime := 1700000000
    execTime := 1700000000 }

/-- A world whose dialog fires only 7 seconds after navigation starts, with
a fully working capture pipeline. -/
def worldLateDialog : Browser.PageWorld :=
  { navError := none
    navDuration := 0
    dialog := some { firedAt := 7, kind := "alert", message := "xss" }
    screenshot := some [1, 2, 3]
    decodeImage := fun b => some b
    encodeJPEG := fun b _ => some b
    writeOk := true
    titleResult := some "Example Domain"
    saveUnixTime := 1700000000
    execTime := 1700000000 }

/-! Helper lemmas.  First, a round-trip showing `Nat.repr` is injective:
`decValue` parses the decimal string `Nat.toDigitsCore` produces. -/

theorem toDigitsCore_append (b : Nat) :
    ∀ (f n : Nat) (acc : List Char),
      Nat.toDigitsCore b f n acc = Nat.toDigitsCore b f n [] ++ acc := by
  intro f
  induction f with
  | zero => intro n acc; simp [Nat.toDigitsCore]
  | succ f ih =>
    intro n acc
    simp only [Nat.toDigitsCore]
    by_cases h : n / b = 0
    · simp [h]
    · simp only [h, if_false]
      rw [ih (n / b) (Nat.digitChar (n % b) :: acc), ih (n / b) [Nat.digitChar (n % b)]]
      simp

theorem digitChar_val : ∀ d : Nat, d < 10 → (Nat.digitChar d).toNat - 48 = d := by decide

theorem decValue_toDigitsCore :
    ∀ f n : Nat, n < f → decValue (Nat.toDigitsCore 10 f n []) = n := by
  intro f
  induction f with
  | zero => intro n h; exact absurd h (Nat.not_lt_zero n)
  | succ f ih =>
    intro n h
    simp only [Nat.toDigitsCore]
    by_cases h0 : n / 10 = 0
    · have hn : n < 10 := by omega
      simp only [h0, if_true, decValue, List.foldl]
      rw [digitChar_val (n % 10) (Nat.mod_lt n (by omega))]
      omega
    · simp only [h0, if_false]
      rw [toDigitsCore_append 10 f (n / 10) [Nat.digitChar (n % 10)]]
      have hrec : decValue (Nat.toDigitsCore 10 f (n / 10) []) = n / 10 := by
        apply ih
        have h1 : n / 10 < n := Nat.div_lt_self (by omega) (by omega)
        omega
      simp only [decValue, List.foldl_append, List.foldl] at hrec ⊢
      rw [hrec, digitChar_val (n % 10) (Nat.mod_lt n (by omega))]
      omega

theorem decValue_repr (n : Nat) : decValue (Nat.repr n).data = n :=
  decValue_toDigitsCore (n + 1) n (Nat.lt_succ_self n)

theorem natRepr_injective {m n : Nat} (h : Nat.repr m = Nat.repr n) : m = n := by
  have h2 := congrArg (fun s => decValue s.data) h
  simpa [decValue_repr] using h2

theorem effectiveWait_pos (cfg : Browser.BrowserConfig) :
    1 ≤ Browser.effectiveWait cfg := by
  unfold Browser.effectiveWait
  split <;> omega

theorem proofFileName_timestamp_injective (url payload : String) {t1 t2 : Nat}
    (h : t1 ≠ t2) :
    Browser.proofFileName url payload t1 ≠ Browser.proofFileName url payload t2 := by
  intro he
  apply h
  apply natRepr_injective
  apply String.ext
  have hd := congrArg String.data he
  simp only [Browser.proofFileName, String.data_append] at hd
  revert hd
  generalize ((SHA256.sha256Hex url).take 12).data = A
  generalize ((SHA256.sha256Hex payload).take 12).data = B
  generalize (Nat.repr t1).data = R1
  generalize (Nat.repr t2).data = R2
  intro hd
  exact List.append_cancel_left (List.append_cancel_right hd)

/-! Claim theorems. -/

/-- C9: for every (url, sessionID), `VerifyStoredXSS(url, sessionID)` is
behaviorally identical to a standard validation call on the same URL with
the fixed evidentiary label: it returns exactly
`ValidatePayload(sessionID, url, "[stored-check]", "stored")`.  Being a
pure function of the manager and the per-call world only, it carries no
state from any earlier injection call. -/
theorem verifyStored_delegates_to_validate (m : Browser.Manager)
    (w : Browser.PageWorld) (url sessionID : String) :
    Browser.VerifyStoredXSS m w url sessionID =
      Browser.ValidatePayload m w sessionID url "[stored-check]" "stored" := rfl

/-- C8: whenever the configured dialog-wait window is zero or negative, the
wait actually used by a validation call collapses to 5 seconds (so at least
one second); the wait used is positive for every configuration; and under
such a configuration a dialog firing by the end of navigation is still
detected, so detection is never made impossible. -/
theorem wait_window_defaults_to_positive (cfg : Browser.BrowserConfig)
    (hz : cfg.WaitForAlertOnlyTime ≤ 0) :
    Browser.effectiveWait cfg = 5 ∧ (1 : Int) ≤ Browser.effectiveWait cfg ∧
    (∀ cfg2 : Browser.BrowserConfig, 1 ≤ Browser.effectiveWait cfg2) ∧
    (∀ (m : Browser.Manager) (w : Browser.PageWorld) (sid url payload ctx : String)
        (d : Browser.DialogEvent),
      m.config = cfg → m.isInitialized = true → w.navError = none →
      w.dialog = some d → d.firedAt ≤ w.navDuration →
      (Browser.ValidatePayload m w sid url payload ctx).result.ExecutionDetected = true) := by
  have h5 : Browser.effectiveWait cfg = 5 := by
    unfold Browser.effectiveWait
    simp [hz]
  refine ⟨h5, by omega, effectiveWait_pos, ?_⟩
  intro m w sid url payload ctx d hcfg hinit hnav hdlg hle
  have hlt : (d.firedAt : Int) < (w.navDuration : Int) + Browser.effectiveWait m.config := by
    have h1 := effectiveWait_pos m.config
    omega
  simp [Browser.ValidatePayload, hinit, hnav, hdlg, hlt]

/-- C8 witness: a zero wait window defaults to 5 seconds. -/
theorem wait_window_defaults_to_positive_witness :
    Browser.effectiveWait
      { HeadlessMode := true, DisableSandbox := false, Timeout := 30,
        WaitForAlertOnlyTime := 0, ChromiumBinaryPath := "", TakeScreenshots := true } = 5 :=
  (wait_window_defaults_to_positive _ (by decide)).1

/-- C7: on a confirmed execution whose capture pipeline succeeds, exactly
one file is written, at
`snapshots/jpg/<sha256hex(url)[:12]>_<sha256hex(payload)[:12]>_<unixTime>.jpg`,
and the proof records that path; and for the same (url, payload), two
different timestamps always give two distinct filenames, so neither file
overwrites the other. -/
theorem proof_filename_scheme (m : Browser.Manager) (w : Browser.PageWorld)
    (sid url payload ctx : String) (d : Browser.DialogEvent) (png jpg : List Nat)
    (hinit : m.isInitialized = true) (hnav : w.navError = none)
    (hdlg : w.dialog = some d)
    (hwin : (d.firedAt : Int) < (w.navDuration : Int) + Browser.effectiveWait m.config)
    (hshot : w.screenshot = some png)
    (hconv : Browser.convertPNGtoJPG w png 95 = Except.ok jpg)
    (hwr : w.writeOk = true) :
    (Browser.ValidatePayload m w sid url payload ctx).writes =
      [("snapshots/jpg/" ++ Browser.proofFileName url payload w.saveUnixTime, jpg)] ∧
    Browser.proofFileName url payload w.saveUnixTime =
      (SHA256.sha256Hex url).take 12 ++ "_" ++ (SHA256.sha256Hex payload).take 12 ++ "_" ++
        Nat.repr w.saveUnixTime ++ ".jpg" ∧
    (∃ p, (Browser.ValidatePayload m w sid url payload ctx).result.ExecutionProofs = [p] ∧
      p.ScreenshotPath = "snapshots/jpg/" ++ Browser.proofFileName url payload w.saveUnixTime) ∧
    (∀ t1 t2 : Nat, t1 ≠ t2 →
      Browser.proofFileName url payload t1 ≠ Browser.proofFileName url payload t2) := by
  have hcap : Browser.capturedFile w url payload =
      some ("snapshots/jpg/" ++ Browser.proofFileName url payload w.saveUnixTime, jpg) := by
    simp [Browser.capturedFile, hshot, hconv, hwr]
  refine ⟨?_, rfl, ?_, fun t1 t2 ht => proofFileName_timestamp_injective url payload ht⟩
  · simp [Browser.ValidatePayload, hinit, hnav, hdlg, hwin, hcap]
  · refine ⟨Browser.confirmedProof w url payload ctx d, ?_, ?_⟩
    · simp [Browser.ValidatePayload, hinit, hnav, hdlg, hwin]
    · simp [Browser.confirmedProof, hcap]

/-- C7 witness: a concrete confirmed call with working capture writes the
hash-named file. -/
theorem proof_filename_scheme_witness :
    (Browser.ValidatePayload Scanning.browserMgr worldCaptureOk "sess"
        "http://target.example/?q=1" "<svg onload=alert(1)>" "query").writes =
      [("snapshots/jpg/" ++
          Browser.proofFileName "http://target.example/?q=1" "<svg onload=alert(1)>" 1700000000,
        [1, 2, 3])] :=
  (proof_filename_scheme Scanning.browserMgr worldCaptureOk "sess"
    "http://target.example/?q=1" "<svg onload=alert(1)>" "query"
    { firedAt := 0, kind := "alert", message := "xss" } [1, 2, 3] [1, 2, 3]
    rfl rfl rfl (by decide) rfl rfl rfl).1

/-- C2: after a successful navigation, the call returns a confirmed result
(both booleans true) if and only if the page's dialog arrives strictly
before the wait window elapses; on confirmation there is exactly one
ExecutionProof whose ExecutionType is the mapped dialog kind (and the
mapping is the identity on alert, confirm and prompt); otherwise both
booleans are false, there are zero proofs, and no file is written under
the proof root. -/
theorem dialog_race_decides_verdict (m : Browser.Manager) (w : Browser.PageWorld)
    (sid url payload ctx : String)
    (hinit : m.isInitialized = true) (hnav : w.navError = none) :
    ((Browser.ValidatePayload m w sid url payload ctx).result.IsVulnerable = true ∧
       (Browser.ValidatePayload m w sid url payload ctx).result.ExecutionDetected = true ↔
      Browser.dialogWithinWindow w (Browser.effectiveWait m.config) = true) ∧
    (∀ d : Browser.DialogEvent, w.dialog = some d →
      Browser.dialogWithinWindow w (Browser.effectiveWait m.config) = true →
      ∃ p, (Browser.ValidatePayload m w sid url payload ctx).result.ExecutionProofs = [p] ∧
        p.ExecutionType = Browser.dialogTypeFromString d.kind) ∧
    (Browser.dialogWithinWindow w (Browser.effectiveWait m.config) = false →
      (Browser.ValidatePayload m w sid url payload ctx).result.IsVulnerable = false ∧
      (Browser.ValidatePayload m w sid url payload ctx).result.ExecutionDetected = false ∧
      (Browser.ValidatePayload m w sid url payload ctx).result.ExecutionProofs = [] ∧
      (Browser.ValidatePayload m w sid url payload ctx).writes = []) ∧
    Browser.dialogTypeFromString "alert" = "alert" ∧
    Browser.dialogTypeFromString "confirm" = "confirm" ∧
    Browser.dialogTypeFromString "prompt" = "prompt" := by
  refine ⟨?_, ?_, ?_, rfl, rfl, rfl⟩
  · rcases hdlg : w.dialog with _ | d
    · simp [Browser.ValidatePayload, Browser.dialogWithinWindow, hinit, hnav, hdlg]
    · by_cases hlt : (d.firedAt : Int) < (w.navDuration : Int) + Browser.effectiveWait m.config
      · simp [Browser.ValidatePayload, Browser.dialogWithinWindow, hinit, hnav, hdlg, hlt]
      · simp [Browser.ValidatePayload, Browser.dialogWithinWindow, hinit, hnav, hdlg, hlt]
  · intro d hdlg hwin
    rw [Browser.dialogWithinWindow, hdlg] at hwin
    simp only [decide_eq_true_eq] at hwin
    refine ⟨Browser.confirmedProof w url payload ctx d, ?_, rfl⟩
    simp [Browser.ValidatePayload, hinit, hnav, hdlg, hwin]
  · intro hwin
    rcases hdlg : w.dialog with _ | d
    · simp [Browser.ValidatePayload, hinit, hnav, hdlg]
    · rw [Browser.dialogWithinWindow, hdlg] at hwin
      simp only [decide_eq_false_iff_not] at hwin
      simp [Browser.ValidatePayload, hinit, hnav, hdlg, hwin]

/-- C2 witness: the dialog-firing world is confirmed with one alert proof;
the no-dialog world yields a negative result and no writes. -/
theorem dialog_race_decides_verdict_witness :
    ((Browser.ValidatePayload Scanning.browserMgr worldNoDialog "sess"
        "http://target.example/?q=1" "[headless-check]" "headless").result.ExecutionDetected =
      false) ∧
    (Browser.ValidatePayload Scanning.browserMgr worldNoDialog "sess"
        "http://target.example/?q=1" "[headless-check]" "headless").writes = [] := by
  have h := (dialog_race_decides_verdict Scanning.browserMgr worldNoDialog "sess"
    "http://target.example/?q=1" "[headless-check]" "headless" rfl rfl).2.2.1 (by decide)
  exact ⟨h.2.1, h.2.2.2⟩

/-- C3: when a dialog was observed, failure of screenshot capture, of the
PNG-to-JPEG conversion, or of the disk write never changes the verdict:
the result still has IsVulnerable and ExecutionDetected true with exactly
one ExecutionProof, and that proof merely has empty ScreenshotPath and
ScreenshotData. -/
theorem capture_failure_never_flips_verdict (m : Browser.Manager)
    (w : Browser.PageWorld) (sid url payload ctx : String) (d : Browser.DialogEvent)
    (hinit : m.isInitialized = true) (hnav : w.navError = none)
    (hdlg : w.dialog = some d)
    (hwin : (d.firedAt : Int) < (w.navDuration : Int) + Browser.effectiveWait m.config)
    (hfail : w.screenshot = none ∨
      (∃ png e, w.screenshot = some png ∧
        Browser.convertPNGtoJPG w png 95 = Except.error e) ∨
      w.writeOk = false) :
    (Browser.ValidatePayload m w sid url payload ctx).result.IsVulnerable = true ∧
    (Browser.ValidatePayload m w sid url payload ctx).result.ExecutionDetected = true ∧
    ∃ p, (Browser.ValidatePayload m w sid url payload ctx).result.ExecutionProofs = [p] ∧
      p.ScreenshotPath = "" ∧ p.ScreenshotData = "" := by
  have hcap : Browser.capturedFile w url payload = none := by
    unfold Browser.capturedFile
    rcases hfail with hs | ⟨png, e, hpng, hc⟩ | hw
    · rw [hs]
    · simp [hpng, hc]
    · rcases hs : w.screenshot with _ | png
      · simp [hs]
      · rcases hc : Browser.convertPNGtoJPG w png 95 with e | jpg
        · simp [hs, hc]
        · simp [hs, hc, hw]
  refine ⟨?_, ?_, ?_⟩
  · simp [Browser.ValidatePayload, hinit, hnav, hdlg, hwin]
  · simp [Browser.ValidatePayload, hinit, hnav, hdlg, hwin]
  · refine ⟨Browser.confirmedProof w url payload ctx d, ?_, ?_, ?_⟩
    · simp [Browser.ValidatePayload, hinit, hnav, hdlg, hwin]
    · simp [Browser.confirmedProof, hcap]
    · simp [Browser.confirmedProof, hcap]

/-- C3 witness: with screenshot, codec and write all failing, the verdict
is still confirmed and the proof lacks the image fields. -/
theorem capture_failure_never_flips_verdict_witness :
    (Browser.ValidatePayload Scanning.browserMgr worldCaptureFails "sess"
        "http://target.example/?q=1" "[headless-check]" "headless").result.IsVulnerable =
      true := by
  exact (capture_failure_never_flips_verdict Scanning.browserMgr worldCaptureFails "sess"
    "http://target.example/?q=1" "[headless-check]" "headless"
    { firedAt := 0, kind := "confirm", message := "xss" }
    rfl rfl rfl (by decide) (Or.inl rfl)).1

/-- C6: in every validation call that reaches the driver (the manager is
initialized), the first two driver actions, in order, are registering the
dialog listener and then starting navigation; consequently a dialog fired
during page load (at or before the end of navigation) is buffered and
still detected. -/
theorem listener_armed_before_navigation (m : Browser.Manager)
    (w : Browser.PageWorld) (sid url payload ctx : String)
    (hinit : m.isInitialized = true) :
    (Browser.ValidatePayload m w sid url payload ctx).steps.take 2 =
      [Browser.Step.registerListener, Browser.Step.navigate] ∧
    (∀ d : Browser.DialogEvent, w.navError = none → w.dialog = some d →
      d.firedAt ≤ w.navDuration →
      (Browser.ValidatePayload m w sid url payload ctx).result.ExecutionDetected = true) := by
  constructor
  · rcases hnav : w.navError with _ | e
    · rcases hdlg : w.dialog with _ | d
      · simp [Browser.ValidatePayload, hinit, hnav, hdlg]
      · by_cases hlt : (d.firedAt : Int) < (w.navDuration : Int) + Browser.effectiveWait m.config
        · simp [Browser.ValidatePayload, hinit, hnav, hdlg, hlt]
        · simp [Browser.ValidatePayload, hinit, hnav, hdlg, hlt]
    · simp [Browser.ValidatePayload, hinit, hnav]
  · intro d hnav hdlg hle
    have hlt : (d.firedAt : Int) < (w.navDuration : Int) + Browser.effectiveWait m.config := by
      have h1 := effectiveWait_pos m.config
      omega
    simp [Browser.ValidatePayload, hinit, hnav, hdlg, hlt]

/-- C6 witness: in a concrete call the trace starts with the listener
registration followed by navigation, and a dialog that fired during page
load is detected. -/
theorem listener_armed_before_navigation_witness :
    (Browser.ValidatePayload Scanning.browserMgr worldCaptureOk "sess"
        "http://target.example/?q=1" "[headless-check]" "headless").steps.take 2 =
      [Browser.Step.registerListener, Browser.Step.navigate] ∧
    (Browser.ValidatePayload Scanning.browserMgr worldCaptureOk "sess"
        "http://target.example/?q=1" "[headless-check]" "headless").result.ExecutionDetected =
      true := by
  have h := listener_armed_before_navigation Scanning.browserMgr worldCaptureOk "sess"
    "http://target.example/?q=1" "[headless-check]" "headless" rfl
  exact ⟨h.1, h.2 { firedAt := 0, kind := "alert", message := "xss" } rfl rfl (by decide)⟩

/-- C1: a validation call never propagates a failure to the caller: the
embedding is total, and each failure mode yields a collapsed result —
environment not initialized and navigation or launch errors yield a
ValidationResult with both booleans false and the error populated, while a
subprocess non-zero exit or malformed backend JSON yields the verdict
`false` together with a logged failure line. -/
theorem failures_collapse_to_safe_result (m : Browser.Manager)
    (w : Browser.PageWorld) (sid url payload ctx emsg : String)
    (opts : Scanning.Options) :
    (m.isInitialized = false →
      (Browser.ValidatePayload m w sid url payload ctx).result.IsVulnerable = false ∧
      (Browser.ValidatePayload m w sid url payload ctx).result.ExecutionDetected = false ∧
      (Browser.ValidatePayload m w sid url payload ctx).result.Error =
        some "browser not initialized") ∧
    (m.isInitialized = true → w.navError = some emsg →
      (Browser.ValidatePayload m w sid url payload ctx).result.IsVulnerable = false ∧
      (Browser.ValidatePayload m w sid url payload ctx).result.ExecutionDetected = false ∧
      (Browser.ValidatePayload m w sid url payload ctx).result.Error = some emsg) ∧
    Scanning.checkXSSWithPuppeteer url opts sid
        (fun _ => Scanning.SubprocessOutcome.exitError emsg) =
      (false, ["Puppeteer verification failed: " ++ emsg]) ∧
    Scanning.checkXSSWithPuppeteer url opts sid
        (fun _ => Scanning.SubprocessOutcome.badOutput emsg) =
      (false, ["Failed to parse Puppeteer result: " ++ emsg]) := by
  refine ⟨?_, ?_, rfl, rfl⟩
  · intro hinit
    simp [Browser.ValidatePayload, hinit]
  · intro hinit hnav
    simp [Browser.ValidatePayload, hinit, hnav]

/-- C1 witness: a navigation failure collapses to a non-vulnerable result
carrying the error, and a failing subprocess yields verdict false. -/
theorem failures_collapse_to_safe_result_witness :
    (Browser.ValidatePayload Scanning.browserMgr worldNavFails "sess"
        "http://unreachable.example/" "[headless-check]" "headless").result.Error =
      some "connection refused" ∧
    Scanning.checkXSSWithPuppeteer "http://unreachable.example/"
        { PuppeteerHeadless := true, HeadlessTimeout := 30 } "sess"
        (fun _ => Scanning.SubprocessOutcome.exitError "exit status 1") =
      (false, ["Puppeteer verification failed: " ++ "exit status 1"]) := by
  exact ⟨((failures_collapse_to_safe_result Scanning.browserMgr worldNavFails "sess"
      "http://unreachable.example/" "[headless-check]" "headless" "connection refused"
      { PuppeteerHeadless := true, HeadlessTimeout := 30 }).2.1 rfl rfl).2.2,
    (failures_collapse_to_safe_result Scanning.browserMgr worldNavFails "sess"
      "http://unreachable.example/" "[headless-check]" "headless" "exit status 1"
      { PuppeteerHeadless := true, HeadlessTimeout := 30 }).2.2.1⟩

/-- C10: on a stored-XSS revisit that confirms execution, the proof's
PayloadSHA256 is the SHA-256 hex digest of the fixed literal
"[stored-check]" — a constant independent of the payload originally
injected into the URL (the digest is pinned concretely, and shown distinct
from the digest of an actual payload), so stored-path proofs cannot be
correlated to the original payload by hash. -/
theorem stored_proof_hashes_fixed_label (m : Browser.Manager)
    (w : Browser.PageWorld) (url sid : String) (d : Browser.DialogEvent)
    (hinit : m.isInitialized = true) (hnav : w.navError = none)
    (hdlg : w.dialog = some d)
    (hwin : (d.firedAt : Int) < (w.navDuration : Int) + Browser.effectiveWait m.config) :
    (∃ p, (Browser.VerifyStoredXSS m w url sid).result.ExecutionProofs = [p] ∧
      p.PayloadSHA256 = SHA256.sha256Hex "[stored-check]" ∧
      p.ExecutionContext = "stored") ∧
    SHA256.sha256Hex "[stored-check]" =
      "809e1bac4747679f9d79a09b43df3125ce9088cad850583534bd92ce59f259c1" ∧
    SHA256.sha256Hex "<script>alert(1)</script>" ≠ SHA256.sha256Hex "[stored-check]" := by
  refine ⟨?_, by decide, by decide⟩
  refine ⟨Browser.confirmedProof w url "[stored-check]" "stored" d, ?_, rfl, rfl⟩
  simp [Browser.VerifyStoredXSS, Browser.ValidatePayload, hinit, hnav, hdlg, hwin]

/-- C10 witness: a concrete confirmed stored revisit carries the digest of
the fixed label. -/
theorem stored_proof_hashes_fixed_label_witness :
    ∃ p, (Browser.VerifyStoredXSS Scanning.browserMgr worldCaptureOk
        "http://target.example/profile" "sess").result.ExecutionProofs = [p] ∧
      p.PayloadSHA256 = SHA256.sha256Hex "[stored-check]" ∧
      p.ExecutionContext = "stored" :=
  (stored_proof_hashes_fixed_label Scanning.browserMgr worldCaptureOk
    "http://target.example/profile" "sess"
    { firedAt := 0, kind := "alert", message := "xss" }
    rfl rfl rfl (by decide)).1

/-- C4 is violated by the chromedp driver: its dialog listener only
forwards the event into a channel and the driver never issues the protocol
command that answers the dialog (no `page.HandleJavaScriptDialog` call
exists on any path), so a dialog-confirming call detects execution yet
leaves the dialog hanging — `Step.handleDialog` appears in no
`ValidatePayload` trace whatsoever — while the Puppeteer driver on the same
world does dismiss it (`await dialog.dismiss()`). -/
theorem chromedp_never_dismisses_dialog :
    (Browser.ValidatePayload Scanning.browserMgr worldCaptureOk "sess"
        "http://target.example/?q=1" "[headless-check]"
        "headless").result.ExecutionDetected = true ∧
    Browser.Step.handleDialog ∉
      (Browser.ValidatePayload Scanning.browserMgr worldCaptureOk "sess"
        "http://target.example/?q=1" "[headless-check]" "headless").steps ∧
    (∀ (m : Browser.Manager) (w : Browser.PageWorld) (sid url payload ctx : String),
      Browser.Step.handleDialog ∉ (Browser.ValidatePayload m w sid url payload ctx).steps) ∧
    Browser.Step.handleDialog ∈
      (Scanning.verifyXSS worldCaptureOk "http://target.example/?q=1"
        "[headless-check]" "sess" 30 5).steps := by
  refine ⟨by decide, by decide, ?_, by decide⟩
  intro m w sid url payload ctx
  by_cases hinit : m.isInitialized
  · rcases hnav : w.navError with _ | e
    · rcases hdlg : w.dialog with _ | d
      · simp [Browser.ValidatePayload, hinit, hnav, hdlg]
      · by_cases hlt : (d.firedAt : Int) < (w.navDuration : Int) + Browser.effectiveWait m.config
        · rcases hcap : Browser.capturedFile w url payload with _ | pr
          · simp [Browser.ValidatePayload, hinit, hnav, hdlg, hlt, hcap]
          · simp [Browser.ValidatePayload, hinit, hnav, hdlg, hlt, hcap]
        · simp [Browser.ValidatePayload, hinit, hnav, hdlg, hlt]
    · simp [Browser.ValidatePayload, hinit, hnav]
  · simp [Browser.ValidatePayload, hinit]

/-- C5 as stated is false: on the same world — a dialog firing 7 seconds
after navigation starts, capture fully working — and the same URL, backend
selection alone flips the verdict.  The chromedp backend runs with the
fixed init-time parameters (timeout 30 s, wait 5 s) and reports false,
while the Puppeteer backend is handed HeadlessTimeout = 60 and
HeadlessTimeout / 6 = 10 as its parameters and reports true. -/
theorem backend_equivalence_counterexample :
    (Scanning.CheckXSSWithHeadless "http://target.example/?q=1"
        { PuppeteerHeadless := false, HeadlessTimeout := 60 } "sess" worldLateDialog
        (Scanning.honestSubprocess worldLateDialog)).1 = false ∧
    (Scanning.CheckXSSWithHeadless "http://target.example/?q=1"
        { PuppeteerHeadless := true, HeadlessTimeout := 60 } "sess" worldLateDialog
        (Scanning.honestSubprocess worldLateDialog)).1 = true ∧
    Scanning.puppeteerArgs "http://target.example/?q=1" "sess"
        { PuppeteerHeadless := true, HeadlessTimeout := 60 } =
      ["http://target.example/?q=1", "[headless-check]", "sess", "60", "10"] ∧
    Scanning.browserMgr.config.Timeout = 30 ∧
    Scanning.browserMgr.config.WaitForAlertOnlyTime = 5 := by
  refine ⟨by decide, by decide, by decide, rfl, rfl⟩

/-- C5 amended: both backends map their backend result to the boolean
verdict the same way (the verdict is the result's executionDetected), but
they do not share parameters — the chromedp backend always runs with the
init-time configuration (timeout 30 s, wait 5 s, ignoring
options.HeadlessTimeout) while the Puppeteer backend runs with
HeadlessTimeout and HeadlessTimeout / 6.  When HeadlessTimeout is 30 —
making the parameters coincide — and the capture pipeline succeeds
whenever a dialog fires (the Puppeteer script, unlike chromedp, fails the
whole call when screenshot, write or title fails), the two backends return
the same verdict on every world. -/
theorem backend_equivalence_on_matching_config (url sid : String)
    (w : Browser.PageWorld) (copts : Scanning.Options)
    (hc : copts.PuppeteerHeadless = false)
    (hcapture : ∀ d : Browser.DialogEvent, w.dialog = some d →
      (∃ shot, w.screenshot = some shot) ∧ w.writeOk = true ∧
      (∃ t, w.titleResult = some t)) :
    (Scanning.CheckXSSWithHeadless url
        { PuppeteerHeadless := true, HeadlessTimeout := 30 } sid w
        (Scanning.honestSubprocess w)).1 =
      (Scanning.CheckXSSWithHeadless url copts sid w
        (Scanning.honestSubprocess w)).1 := by
  have h30 : jsParseInt (Int.repr (30 : Int)) = some 30 := by decide
  have h5 : jsParseInt (Int.repr (Int.tdiv (30 : Int) 6)) = some 5 := by decide
  have hw5 : Browser.effectiveWait Scanning.browserMgr.config = 5 := by decide
  simp only [Scanning.CheckXSSWithHeadless, hc, Bool.false_eq_true, if_false]
  simp only [ite_true]
  rcases hnav : w.navError with _ | e
  · rcases hdlg : w.dialog with _ | d
    · simp [Scanning.checkXSSWithPuppeteer, Scanning.honestSubprocess, Scanning.puppeteerArgs,
        Scanning.puppeteerMain, Scanning.verifyXSS, Scanning.checkXSSWithChromedp,
        Scanning.browserMgr, Scanning.initBrowserConfig, Browser.effectiveWait,
        Browser.ValidatePayload, hnav, hdlg, h30, h5]
    · by_cases hlt : (d.firedAt : Int) < (w.navDuration : Int) + 5
      · obtain ⟨⟨shot, hshot⟩, hwr, ⟨ttl, httl⟩⟩ := hcapture d hdlg
        simp [Scanning.checkXSSWithPuppeteer, Scanning.honestSubprocess, Scanning.puppeteerArgs,
          Scanning.puppeteerMain, Scanning.verifyXSS, Scanning.checkXSSWithChromedp,
          Scanning.browserMgr, Scanning.initBrowserConfig, Browser.effectiveWait,
          Browser.ValidatePayload, hnav, hdlg, h30, h5, hw5, hlt, hshot, hwr, httl]
      · simp [Scanning.checkXSSWithPuppeteer, Scanning.honestSubprocess, Scanning.puppeteerArgs,
          Scanning.puppeteerMain, Scanning.verifyXSS, Scanning.checkXSSWithChromedp,
          Scanning.browserMgr, Scanning.initBrowserConfig, Browser.effectiveWait,
          Browser.ValidatePayload, hnav, hdlg, h30, h5, hw5, hlt]
  · simp [Scanning.checkXSSWithPuppeteer, Scanning.honestSubprocess, Scanning.puppeteerArgs,
      Scanning.puppeteerMain, Scanning.verifyXSS, Scanning.checkXSSWithChromedp,
      Scanning.browserMgr, Scanning.initBrowserConfig, Browser.effectiveWait,
      Browser.ValidatePayload, hnav, h30, h5]

/-- C5 amended witness: on a concrete working world, the Puppeteer backend
at HeadlessTimeout 30 and the chromedp backend agree. -/
theorem backend_equivalence_on_matching_config_witness :
    (Scanning.CheckXSSWithHeadless "http://target.example/?q=1"
        { PuppeteerHeadless := true, HeadlessTimeout := 30 } "sess" worldCaptureOk
        (Scanning.honestSubprocess worldCaptureOk)).1 =
      (Scanning.CheckXSSWithHeadless "http://target.example/?q=1"
        { PuppeteerHeadless := false, HeadlessTimeout := 60 } "sess" worldCaptureOk
        (Scanning.honestSubprocess worldCaptureOk)).1 :=
  backend_equivalence_on_matching_config "http://target.example/?q=1" "sess" worldCaptureOk
    { PuppeteerHeadless := false, HeadlessTimeout := 60 } rfl
    (fun _ _ => ⟨⟨[1, 2, 3], rfl⟩, rfl, ⟨"Example Domain", rfl⟩⟩)
